import Mathlib

/-!
Verification of the fast-go-annotations core: field grammar, GAF record
conversion pipeline, and the rule validation engine.  Rust text values are
modelled as lists of characters; fallible Rust functions returning
`Result<T, String>` become `Except Str T`; Rust code that can panic is
modelled with `Option`, where `none` marks an aborted evaluation.
-/

namespace FGA

/-- Rust strings are modelled as lists of characters. -/
abbrev Str := List Char

/-- Embed a Lean string literal as a character list. -/
def str (s : String) : Str := s.data

deriving instance DecidableEq for Except

/-- Rust `Result::and_then`. -/
def andThenE {ε α β : Type} (x : Except ε α) (f : α → Except ε β) : Except ε β :=
  match x with
  | .ok a => f a
  | .error e => .error e

/-- Rust `Result::map`. -/
def mapE {ε α β : Type} (x : Except ε α) (f : α → β) : Except ε β :=
  match x with
  | .ok a => .ok (f a)
  | .error e => .error e

@[simp] theorem andThenE_ok {ε α β : Type} (a : α) (f : α → Except ε β) :
    andThenE (.ok a) f = f a := rfl

@[simp] theorem andThenE_error {ε α β : Type} (e : ε) (f : α → Except ε β) :
    andThenE (.error e) f = .error e := rfl

@[simp] theorem mapE_ok {ε α β : Type} (a : α) (f : α → β) :
    mapE (ε := ε) (.ok a) f = .ok (f a) := rfl

@[simp] theorem mapE_error {ε α β : Type} (e : ε) (f : α → β) :
    mapE (α := α) (.error e) f = .error e := rfl

@[simp] theorem isOk_mapE {ε α β : Type} (x : Except ε α) (f : α → β) :
    (mapE x f).isOk = x.isOk := by
  cases x <;> rfl

theorem exists_ok_of_isOk {ε α : Type} {x : Except ε α} (h : x.isOk = true) :
    ∃ a, x = .ok a := by
  cases x with
  | ok a => exact ⟨a, rfl⟩
  | error e => simp [Except.isOk, Except.toBool] at h

theorem mapE_eq_error_iff {ε α β : Type} {x : Except ε α} {f : α → β} {e : ε} :
    mapE x f = .error e ↔ x = .error e := by
  cases x <;> simp [mapE]

/-- Rust `str::splitn(2, c)`: split at the first occurrence of `c`.
`none` when `c` does not occur (the iterator yields a single piece). -/
def splitFirst (c : Char) : Str → Option (Str × Str)
  | [] => none
  | x :: xs =>
    if x = c then some ([], xs)
    else (splitFirst c xs).map (fun p => (x :: p.1, p.2))

theorem splitFirst_eq_none_iff {c : Char} {s : Str} :
    splitFirst c s = none ↔ c ∉ s := by
  induction s with
  | nil => simp [splitFirst]
  | cons x xs ih =>
    by_cases hx : x = c
    · subst hx; simp [splitFirst]
    · simp [splitFirst, hx, Option.map_eq_none', ih, Ne.symm hx]

theorem splitFirst_eq_some {c : Char} {s a b : Str}
    (h : splitFirst c s = some (a, b)) : s = a ++ c :: b ∧ c ∉ a := by
  induction s generalizing a b with
  | nil => simp [splitFirst] at h
  | cons x xs ih =>
    by_cases hx : x = c
    · subst hx
      simp [splitFirst] at h
      obtain ⟨ha, hb⟩ := h
      subst ha; subst hb; simp
    · rw [splitFirst, if_neg hx] at h
      rcases hsp : splitFirst c xs with _ | p
      · rw [hsp] at h; simp at h
      · rw [hsp] at h
        simp only [Option.map_some', Option.some.injEq, Prod.mk.injEq] at h
        obtain ⟨ha, hb⟩ := h
        obtain ⟨hs, hna⟩ := ih (a := p.1) (b := p.2) (by simpa using hsp)
        subst hb
        constructor
        · rw [← ha, hs]; simp
        · rw [← ha]
          intro hmem
          rcases List.mem_cons.mp hmem with h1 | h2
          · exact hx h1.symm
          · exact hna h2

theorem splitFirst_append {c : Char} {a : Str} (b : Str) (h : c ∉ a) :
    splitFirst c (a ++ c :: b) = some (a, b) := by
  induction a with
  | nil => simp [splitFirst]
  | cons x xs ih =>
    have hx : ¬ x = c := by intro hh; exact h (hh ▸ List.mem_cons_self x xs)
    simp [splitFirst, hx, ih (fun hm => h (List.mem_cons_of_mem _ hm))]

/-- Rust `str::split(c)` over every occurrence; the empty string yields one
empty piece, just as in Rust. -/
def splitAll (c : Char) : Str → List Str
  | [] => [[]]
  | x :: xs =>
    if x = c then [] :: splitAll c xs
    else
      match splitAll c xs with
      | [] => [[x]]
      | s :: rest => (x :: s) :: rest

theorem splitAll_ne_nil (c : Char) (s : Str) : splitAll c s ≠ [] := by
  cases s with
  | nil => simp [splitAll]
  | cons x xs =>
    by_cases hx : x = c
    · simp [splitAll, hx]
    · simp only [splitAll, hx, if_false]
      cases splitAll c xs <;> simp

theorem prefix_within {l₁ l₂ : Str} (h : l₁ <+: l₂) : l₁ <:+: l₂ := by
  obtain ⟨t, ht⟩ := h
  exact ⟨[], t, by simpa using ht⟩

theorem splitAll_shape (c : Char) (s : Str) :
    ∃ hd tl, splitAll c s = hd :: tl ∧ hd <+: s ∧ ∀ seg ∈ tl, seg <:+: s := by
  induction s with
  | nil => exact ⟨[], [], rfl, List.nil_prefix, by simp⟩
  | cons x xs ih =>
    obtain ⟨hd, tl, heq, hpre, htl⟩ := ih
    by_cases hx : x = c
    · refine ⟨[], splitAll c xs, by simp [splitAll, hx], List.nil_prefix, ?_⟩
      intro seg hseg
      rw [heq] at hseg
      rcases List.mem_cons.mp hseg with rfl | hmem
      · exact (prefix_within hpre).trans (List.infix_cons (List.infix_refl xs))
      · exact (htl seg hmem).trans (List.infix_cons (List.infix_refl xs))
    · refine ⟨x :: hd, tl, ?_, ?_, ?_⟩
      · simp only [splitAll, hx, if_false, heq]
      · exact (List.prefix_cons_inj x).mpr hpre
      · intro seg hseg
        exact (htl seg hseg).trans (List.infix_cons (List.infix_refl xs))

theorem mem_splitAll_within {c : Char} {s seg : Str}
    (h : seg ∈ splitAll c s) : seg <:+: s := by
  obtain ⟨hd, tl, heq, hpre, htl⟩ := splitAll_shape c s
  rw [heq] at h
  rcases List.mem_cons.mp h with rfl | hmem
  · exact prefix_within hpre
  · exact htl seg hmem

/-- Compact namespaced identifier `namespace:identifier` (fields.rs). -/
structure Curie where
  ns : Str
  identifier : Str
  deriving DecidableEq, Repr

/-- `Curie::new` (fields.rs). -/
def Curie.new (n i : Str) : Curie := ⟨n, i⟩

/-- `Curie::string`, also its `Display` (fields.rs). -/
def Curie.string (c : Curie) : Str := c.ns ++ ':' :: c.identifier

/-- `TryFrom<&str> for Curie` (fields.rs): split on the first `:`. -/
def Curie.tryFrom (entity : Str) : Except Str Curie :=
  match splitFirst ':' entity with
  | none => .error (str "Curies cannot be empty. They take the form `Namespace:Identifier`")
  | some (first, second) =>
    if first = [] ∧ second = [] then
      .error (str "Curies cannot be empty. They take the form `Namespace:Identifier`")
    else if first = [] then .error (str "Curie Namespaces cannot be empty")
    else if second = [] then .error (str "Curie Identifiers cannot be empty")
    else .ok ⟨first, second⟩

/-- `Curie::same_namespace` (fields.rs). -/
def Curie.sameNamespace (c : Curie) (n : Str) : Bool := n = c.ns

/-- The error halves of a `partition(Result::is_ok)` (fields.rs list parsing). -/
def errorsOf {α : Type} (results : List (Except Str α)) : List Str :=
  results.filterMap fun r => match r with | .error e => some e | .ok _ => none

/-- The ok halves of a `partition(Result::is_ok)` (fields.rs list parsing). -/
def oksOf {α : Type} (results : List (Except Str α)) : List α :=
  results.filterMap fun r => match r with | .ok a => some a | .error _ => none

/-- `TryFrom<&str> for ListField<I>` (fields.rs): pipe-separated; the empty
string parses to no items; otherwise every failing segment is aggregated into
one error message. `p` is the `try_from` of the inner type. -/
def listFieldTryFrom {α : Type} (p : Str → Except Str α) (entity : Str) :
    Except Str (List α) :=
  if entity = [] then .ok []
  else if errorsOf ((splitAll '|' entity).map p) = [] then
    .ok (oksOf ((splitAll '|' entity).map p))
  else
    .error (str "Errors parsing `" ++ entity ++ str "`: " ++
      List.intercalate (str "; ") (errorsOf ((splitAll '|' entity).map p)))

/-- `TryFrom<&str> for Conjunction<C>` (fields.rs): comma-separated with the
same aggregate-error policy, but with no special case for the empty string. -/
def conjunctionTryFrom {α : Type} (p : Str → Except Str α) (entity : Str) :
    Except Str (List α) :=
  if errorsOf ((splitAll ',' entity).map p) = [] then
    .ok (oksOf ((splitAll ',' entity).map p))
  else
    .error (str "Errors parsing `" ++ entity ++ str "`: " ++
      List.intercalate (str "; ") (errorsOf ((splitAll ',' entity).map p)))

/-- `NoSpaceString` (fields.rs). -/
structure NoSpaceString where
  value : Str
  deriving DecidableEq, Repr

/-- `TryFrom<&str> for NoSpaceString` (fields.rs). -/
def NoSpaceString.tryFrom (entity : Str) : Except Str NoSpaceString :=
  if ' ' ∈ entity then .error (str "Spaces are not allowed")
  else .ok ⟨entity⟩

/-- `PlainString` (fields.rs). -/
structure PlainString where
  value : Str
  deriving DecidableEq, Repr

/-- `TryFrom<&str> for PlainString` (fields.rs): rejects the empty string. -/
def PlainString.tryFrom (entity : Str) : Except Str PlainString :=
  if entity = [] then .error (str "Field cannot be empty")
  else .ok ⟨entity⟩

/-- `Label` (fields.rs). -/
structure Label where
  value : Str
  deriving DecidableEq, Repr

/-- `TryFrom<&str> for Label` (fields.rs): forwards to `NoSpaceString`. -/
def Label.tryFrom (entity : Str) : Except Str Label :=
  mapE (NoSpaceString.tryFrom entity) (fun s => ⟨s.value⟩)

/-- The `Not` qualifier token (fields.rs). -/
structure NotQualifier : Type where
  mk ::
  deriving DecidableEq, Repr

/-- `TryFrom<&str> for Not` (fields.rs). -/
def NotQualifier.tryFrom (entity : Str) : Except Str NotQualifier :=
  if entity = str "NOT" then .ok ⟨⟩
  else .error (str "`" ++ entity ++ str "` should be `NOT`")

/-- `EcoCode` (fields.rs): the closed GAF evidence-code vocabulary. -/
inductive EcoCode : Type
  | EXP | IDA | IPI | IMP | IMR | IGI | IEP | HTP | HDA | HMP | HGI | HEP
  | IBA | IBD | IKR | IRD | ISS | ISO | ISA | ISM | IGC | RCA | TAS | NAS
  | IC | ND | IEA
  deriving DecidableEq, Repr

/-- The `Debug`/`Display` rendering of an `EcoCode` (fields.rs). -/
def ecoName : EcoCode → Str
  | .EXP => str "EXP" | .IDA => str "IDA" | .IPI => str "IPI" | .IMP => str "IMP"
  | .IMR => str "IMR" | .IGI => str "IGI" | .IEP => str "IEP" | .HTP => str "HTP"
  | .HDA => str "HDA" | .HMP => str "HMP" | .HGI => str "HGI" | .HEP => str "HEP"
  | .IBA => str "IBA" | .IBD => str "IBD" | .IKR => str "IKR" | .IRD => str "IRD"
  | .ISS => str "ISS" | .ISO => str "ISO" | .ISA => str "ISA" | .ISM => str "ISM"
  | .IGC => str "IGC" | .RCA => str "RCA" | .TAS => str "TAS" | .NAS => str "NAS"
  | .IC => str "IC" | .ND => str "ND" | .IEA => str "IEA"

/-- The `EnumIter` iteration order of `EcoCode` (fields.rs). -/
def ecoCodeList : List EcoCode :=
  [.EXP, .IDA, .IPI, .IMP, .IMR, .IGI, .IEP, .HTP, .HDA, .HMP, .HGI, .HEP,
   .IBA, .IBD, .IKR, .IRD, .ISS, .ISO, .ISA, .ISM, .IGC, .RCA, .TAS, .NAS,
   .IC, .ND, .IEA]

/-- `TryFrom<&str> for EcoCode` (fields.rs): match the rendered name. -/
def EcoCode.tryFrom (entity : Str) : Except Str EcoCode :=
  match ecoCodeList.find? (fun c => decide (ecoName c = entity)) with
  | some c => .ok c
  | none => .error (str "ECO code `" ++ entity ++ str "` not found")

/-- `Aspect` (fields.rs). -/
inductive Aspect : Type
  | CellComponent | MolecularFunction | BioProcess
  deriving DecidableEq, Repr

/-- `Aspect::as_char` (fields.rs). -/
def Aspect.asChar : Aspect → Char
  | .CellComponent => 'C'
  | .MolecularFunction => 'F'
  | .BioProcess => 'P'

/-- `TryFrom<char> for Aspect` (fields.rs). -/
def Aspect.tryFrom (entity : Char) : Except Str Aspect :=
  match entity with
  | 'C' => .ok .CellComponent
  | 'F' => .ok .MolecularFunction
  | 'P' => .ok .BioProcess
  | c => .error (str "Aspect must be `C`, `F`, or `P`, but received `" ++ [c] ++ str "`")

/-- A calendar date (fields.rs `Date`, backed there by chrono). -/
structure Date where
  year : Nat
  month : Nat
  day : Nat
  deriving DecidableEq, Repr

/-- Interpret a digit list as a number. -/
def digitsToNat (ds : Str) : Nat :=
  ds.foldl (fun acc c => acc * 10 + (c.toNat - '0'.toNat)) 0

/-- Modelled from the spec: `TryFrom<&str> for Date` (fields.rs) delegates to
the `%Y%m%d` parser of the external chrono crate, which is not part of this
repository; the spec fixes the format as a strict 8-digit `YYYYMMDD`. -/
def Date.tryFrom (entity : Str) : Except Str Date :=
  if entity.length = 8 ∧ entity.all Char.isDigit then
    let y := digitsToNat (entity.take 4)
    let m := digitsToNat ((entity.drop 4).take 2)
    let d := digitsToNat (entity.drop 6)
    if 1 ≤ m ∧ m ≤ 12 ∧ 1 ≤ d ∧ d ≤ 31 then .ok ⟨y, m, d⟩
    else .error (str "input is out of range")
  else .error (str "input contains invalid characters")

/-- `EitherOrBoth<L, R>` (fields.rs). -/
inductive EitherOrBoth (L R : Type) : Type
  | Left (l : L)
  | Right (r : R)
  | Both (l : L) (r : R)
  deriving DecidableEq, Repr

/-- `TryFrom<&str> for EitherOrBoth<L, R>` (fields.rs): split at most once on
the pipe, try `L` on the first piece, fall back to `R` on that same piece. -/
def eitherOrBothTryFrom {L R : Type} (pL : Str → Except Str L)
    (pR : Str → Except Str R) (entity : Str) : Except Str (EitherOrBoth L R) :=
  let pieces : Str × Option Str :=
    match splitFirst '|' entity with
    | none => (entity, none)
    | some (a, b) => (a, some b)
  match pL pieces.1 with
  | .ok l =>
    match pieces.2 with
    | some second =>
      match pR second with
      | .ok r => .ok (.Both l r)
      | .error rightErr =>
        .error (str "Failed to parse " ++ entity ++ str ": " ++ rightErr)
    | none => .ok (.Left l)
  | .error leftErr =>
    match pR pieces.1 with
    | .ok r => .ok (.Right r)
    | .error rightErr =>
      .error (str "Failed to parse " ++ entity ++ str ": " ++ leftErr ++
        str " or " ++ rightErr)

/-- `OneOrTwoItems<I>` (fields.rs). -/
inductive OneOrTwoItems (I : Type) : Type
  | One (one : I)
  | Two (first second : I)
  deriving DecidableEq, Repr

/-- The primary item of a `OneOrTwoItems` (first of two, or the only one). -/
def OneOrTwoItems.first {I : Type} : OneOrTwoItems I → I
  | .One one => one
  | .Two first _ => first

/-- `TryFrom<&str> for OneOrTwoItems<I>` (fields.rs). -/
def oneOrTwoTryFrom {I : Type} (p : Str → Except Str I) (entity : Str) :
    Except Str (OneOrTwoItems I) :=
  let pieces : Str × Option Str :=
    match splitFirst '|' entity with
    | none => (entity, none)
    | some (a, b) => (a, some b)
  match p pieces.1 with
  | .ok one =>
    match pieces.2 with
    | some second =>
      match p second with
      | .ok two => .ok (.Two one two)
      | .error twoErr => .error (str "Error parsing " ++ entity ++ str ": " ++ twoErr)
    | none => .ok (.One one)
  | .error oneErr => .error (str "Error parsing " ++ entity ++ str ": " ++ oneErr)

/-- `ClassExpression<R, F>` (fields.rs): `relation(filler)`. -/
structure ClassExpression (R F : Type) : Type where
  relation : R
  filler : F
  deriving DecidableEq, Repr

/-- The split performed by the regex `^(.+)\((.+)\)$` (fields.rs): the input
must end in `)`, and the greedy first group ends at the last `(` that leaves a
non-empty filler before the final `)` and a non-empty relation before it. -/
def classExprSplit (s : Str) : Option (Str × Str) :=
  match s.getLast? with
  | some ')' =>
    let core := s.dropLast
    match (List.range core.length).reverse.find?
        (fun i => decide (core.getD i ' ' = '(' ∧ 1 ≤ i ∧ i + 1 < core.length)) with
    | some i => some (core.take i, core.drop (i + 1))
    | none => none
  | _ => none

/-- `TryFrom<&str> for ClassExpression<R, F>` (fields.rs). -/
def classExpressionTryFrom {R F : Type} (pr : Str → Except Str R)
    (pf : Str → Except Str F) (entity : Str) : Except Str (ClassExpression R F) :=
  match classExprSplit entity with
  | none => .error (str "Error parsing " ++ entity ++ str ". Must be `relation(filler)`")
  | some (a, b) =>
    match pr a with
    | .ok relation =>
      match pf b with
      | .ok filler => .ok ⟨relation, filler⟩
      | .error err => .error err
    | .error err => .error err

/-- `RawGaf2_1Record` (annotation/mod.rs): 17 raw columns from the tokenizer. -/
structure RawGaf21Record where
  c0 : Str
  c1 : Str
  c2 : Str
  c3 : Option Str
  c4 : Str
  c5 : Str
  c6 : Str
  c7 : Str
  c8 : Char
  c9 : Option Str
  c10 : Str
  c11 : Str
  c12 : Str
  c13 : Str
  c14 : Str
  c15 : Str
  c16 : Option Str
  deriving DecidableEq, Repr

/-- `BaseGaf2_1Row` (annotation/mod.rs): the typed GAF row. -/
structure BaseGaf21Row where
  f0 : NoSpaceString
  f1 : NoSpaceString
  f2 : NoSpaceString
  f3 : Option (EitherOrBoth NotQualifier Label)
  f4 : Curie
  f5 : List Curie
  f6 : EcoCode
  f7 : List Curie
  f8 : Aspect
  f9 : Option PlainString
  f10 : List PlainString
  f11 : PlainString
  f12 : OneOrTwoItems Curie
  f13 : Date
  f14 : NoSpaceString
  f15 : List (List (ClassExpression Label Curie))
  f16 : Option Curie
  deriving DecidableEq, Repr

/-- Column 0 validation of a raw record (annotation/mod.rs). -/
def parseCol0 (r : RawGaf21Record) : Except Str NoSpaceString :=
  NoSpaceString.tryFrom r.c0

/-- Column 1 validation of a raw record (annotation/mod.rs). -/
def parseCol1 (r : RawGaf21Record) : Except Str NoSpaceString :=
  NoSpaceString.tryFrom r.c1

/-- Column 2 validation of a raw record (annotation/mod.rs). -/
def parseCol2 (r : RawGaf21Record) : Except Str NoSpaceString :=
  NoSpaceString.tryFrom r.c2

/-- Column 3 validation of a raw record (annotation/mod.rs). -/
def parseCol3 (r : RawGaf21Record) :
    Except Str (Option (EitherOrBoth NotQualifier Label)) :=
  match r.c3 with
  | none => .ok none
  | some f => mapE (eitherOrBothTryFrom NotQualifier.tryFrom Label.tryFrom f) some

/-- Column 4 validation of a raw record (annotation/mod.rs). -/
def parseCol4 (r : RawGaf21Record) : Except Str Curie :=
  Curie.tryFrom r.c4

/-- Column 5 validation of a raw record (annotation/mod.rs). -/
def parseCol5 (r : RawGaf21Record) : Except Str (List Curie) :=
  listFieldTryFrom Curie.tryFrom r.c5

/-- Column 6 validation of a raw record (annotation/mod.rs). -/
def parseCol6 (r : RawGaf21Record) : Except Str EcoCode :=
  EcoCode.tryFrom r.c6

/-- Column 7 validation of a raw record (annotation/mod.rs). -/
def parseCol7 (r : RawGaf21Record) : Except Str (List Curie) :=
  listFieldTryFrom Curie.tryFrom r.c7

/-- Column 8 validation of a raw record (annotation/mod.rs). -/
def parseCol8 (r : RawGaf21Record) : Except Str Aspect :=
  Aspect.tryFrom r.c8

/-- Column 9 validation of a raw record (annotation/mod.rs). -/
def parseCol9 (r : RawGaf21Record) : Except Str (Option PlainString) :=
  match r.c9 with
  | none => .ok none
  | some f => mapE (PlainString.tryFrom f) some

/-- Column 10 validation of a raw record (annotation/mod.rs). -/
def parseCol10 (r : RawGaf21Record) : Except Str (List PlainString) :=
  listFieldTryFrom PlainString.tryFrom r.c10

/-- Column 11 validation of a raw record (annotation/mod.rs). -/
def parseCol11 (r : RawGaf21Record) : Except Str PlainString :=
  PlainString.tryFrom r.c11

/-- Column 12 validation of a raw record (annotation/mod.rs). -/
def parseCol12 (r : RawGaf21Record) : Except Str (OneOrTwoItems Curie) :=
  oneOrTwoTryFrom Curie.tryFrom r.c12

/-- Column 13 validation of a raw record (annotation/mod.rs). -/
def parseCol13 (r : RawGaf21Record) : Except Str Date :=
  Date.tryFrom r.c13

/-- Column 14 validation of a raw record (annotation/mod.rs). -/
def parseCol14 (r : RawGaf21Record) : Except Str NoSpaceString :=
  NoSpaceString.tryFrom r.c14

/-- Column 15 validation of a raw record (annotation/mod.rs). -/
def parseCol15 (r : RawGaf21Record) :
    Except Str (List (List (ClassExpression Label Curie))) :=
  listFieldTryFrom
    (conjunctionTryFrom (classExpressionTryFrom Label.tryFrom Curie.tryFrom)) r.c15

/-- Column 16 validation of a raw record (annotation/mod.rs). -/
def parseCol16 (r : RawGaf21Record) : Except Str (Option Curie) :=
  match r.c16 with
  | none => .ok none
  | some f => mapE (Curie.tryFrom f) some

/-- The validation of one column with its result erased, for stating the
left-to-right fail-fast law (columns ≥ 17 trivially succeed). -/
def colParse (r : RawGaf21Record) : Nat → Except Str Unit
  | 0 => mapE (parseCol0 r) fun _ => ()
  | 1 => mapE (parseCol1 r) fun _ => ()
  | 2 => mapE (parseCol2 r) fun _ => ()
  | 3 => mapE (parseCol3 r) fun _ => ()
  | 4 => mapE (parseCol4 r) fun _ => ()
  | 5 => mapE (parseCol5 r) fun _ => ()
  | 6 => mapE (parseCol6 r) fun _ => ()
  | 7 => mapE (parseCol7 r) fun _ => ()
  | 8 => mapE (parseCol8 r) fun _ => ()
  | 9 => mapE (parseCol9 r) fun _ => ()
  | 10 => mapE (parseCol10 r) fun _ => ()
  | 11 => mapE (parseCol11 r) fun _ => ()
  | 12 => mapE (parseCol12 r) fun _ => ()
  | 13 => mapE (parseCol13 r) fun _ => ()
  | 14 => mapE (parseCol14 r) fun _ => ()
  | 15 => mapE (parseCol15 r) fun _ => ()
  | 16 => mapE (parseCol16 r) fun _ => ()
  | _ => .ok ()

/-- `TryFrom<RawGaf2_1Record> for BaseGaf2_1Row` (annotation/mod.rs): the
nested `and_then` chain validating columns strictly left to right. -/
def BaseGaf21Row.tryFrom (r : RawGaf21Record) : Except Str BaseGaf21Row :=
  andThenE (parseCol0 r) fun f0 =>
  andThenE (parseCol1 r) fun f1 =>
  andThenE (parseCol2 r) fun f2 =>
  andThenE (parseCol3 r) fun f3 =>
  andThenE (parseCol4 r) fun f4 =>
  andThenE (parseCol5 r) fun f5 =>
  andThenE (parseCol6 r) fun f6 =>
  andThenE (parseCol7 r) fun f7 =>
  andThenE (parseCol8 r) fun f8 =>
  andThenE (parseCol9 r) fun f9 =>
  andThenE (parseCol10 r) fun f10 =>
  andThenE (parseCol11 r) fun f11 =>
  andThenE (parseCol12 r) fun f12 =>
  andThenE (parseCol13 r) fun f13 =>
  andThenE (parseCol14 r) fun f14 =>
  andThenE (parseCol15 r) fun f15 =>
  mapE (parseCol16 r) fun f16 =>
  ⟨f0, f1, f2, f3, f4, f5, f6, f7, f8, f9, f10, f11, f12, f13, f14, f15, f16⟩

/-- `Subject` (annotation/model.rs). -/
structure Subject where
  id : Curie
  label : NoSpaceString
  fullname : Option PlainString
  synonyms : List PlainString
  kind : PlainString
  taxon : Option Curie
  deriving DecidableEq, Repr

/-- `Subject::default` (annotation/model.rs). -/
def Subject.defaultValue : Subject :=
  ⟨Curie.new (str "NS") (str "12345"), ⟨str "test_label"⟩, none, [],
    ⟨str "gene_product"⟩, none⟩

/-- `Term` (annotation/model.rs). -/
structure Term where
  id : Curie
  taxon : Option Curie
  deriving DecidableEq, Repr

/-- `Evidence` (annotation/model.rs). -/
structure Evidence where
  id : Curie
  hasSupportingReference : List Curie
  withSupportFrom : List (List Curie)
  deriving DecidableEq, Repr

/-- `Evidence::default` (annotation/model.rs). -/
def Evidence.defaultValue : Evidence :=
  ⟨Curie.new (str "ECO") (str "0000000"), [], []⟩

/-- `Metadata` (annotation/model.rs); a `Property` is a key/value pair. -/
structure Metadata where
  negated : Bool
  aspect : Option Aspect
  interactingTaxon : Option Curie
  providedBy : NoSpaceString
  date : Date
  properties : List (Str × Str)
  deriving DecidableEq, Repr

/-- `Metadata::default` (annotation/model.rs). -/
def Metadata.defaultValue : Metadata :=
  ⟨false, none, none, ⟨str "Test"⟩, ⟨2020, 1, 1⟩, []⟩

/-- `Extensions` (annotation/model.rs). -/
structure Extensions where
  subject : Option (ClassExpression Curie Curie)
  object : List (List (ClassExpression Curie Curie))
  deriving DecidableEq, Repr

/-- `Extensions::default` (annotation/model.rs). -/
def Extensions.defaultValue : Extensions := ⟨none, []⟩

/-- `GoAssociation` (annotation/model.rs). -/
structure GoAssociation where
  subject : Subject
  relation : Curie
  object : Term
  negated : Bool
  aspect : Option Aspect
  interactingTaxon : Option Curie
  evidence : Evidence
  subjectExtension : Option (ClassExpression Curie Curie)
  objectExtension : List (List (ClassExpression Curie Curie))
  providedBy : NoSpaceString
  date : Date
  properties : List (Str × Str)
  deriving DecidableEq, Repr

/-- `From<(Subject, Relation, Term, Evidence, Metadata, Extensions)>`
for `GoAssociation` (annotation/model.rs). -/
def GoAssociation.fromParts (subject : Subject) (relation : Curie) (term : Term)
    (evidence : Evidence) (metadata : Metadata) (extensions : Extensions) :
    GoAssociation :=
  { subject := subject
    relation := relation
    object := term
    negated := metadata.negated
    aspect := metadata.aspect
    interactingTaxon := metadata.interactingTaxon
    evidence := evidence
    subjectExtension := extensions.subject
    objectExtension := extensions.object
    providedBy := metadata.providedBy
    date := metadata.date
    properties := metadata.properties }

/-- The slice of the fastobo node `Meta` consumed by ontology.rs: the
`deprecated` flag and the `(pred, val)` basic property values. -/
structure OntNodeMeta where
  deprecatedFlag : Bool
  basicPropertyValues : List (Str × Str)
  deriving DecidableEq, Repr

/-- The slice of the fastobo `Node` consumed by ontology.rs. -/
structure OntNode where
  meta : Option OntNodeMeta
  deriving DecidableEq, Repr

/-- `NodeDeprecated::deprecated for Node` (ontology.rs). -/
def nodeDeprecated (n : OntNode) : Bool :=
  if n.meta.map (fun m => m.deprecatedFlag) = some true then true
  else
    ((n.meta.map fun m =>
      (m.basicPropertyValues.find? fun pv =>
        decide (pv.1 = str "http://www.w3.org/2002/07/owl#deprecated")).map
          fun pv => decide (pv.2 = str "true")).join).getD false

/-- `NodeDeprecated::replaced_by for Node` (ontology.rs). -/
def nodeReplacedBy (n : OntNode) : Option Str :=
  (n.meta.map fun m =>
    (m.basicPropertyValues.find? fun pv =>
      decide (pv.1 = str "http://purl.obolibrary.org/obo/IAO_0100001")).map
        fun pv => pv.2).join

/-- The ontology as its rules-facing query interface: node lookup by URI
(ontology.rs `node_id_to_index` + `node`). -/
abbrev Ontology := List (Str × OntNode)

/-- `Ontology::node` (ontology.rs). -/
def ontologyNode (o : Ontology) (id : Str) : Option OntNode :=
  (o.find? fun p => decide (p.1 = id)).map fun p => p.2

/-- Split a string at the first occurrence of a substring pattern. -/
def substrSplitOnce (pat : Str) : Str → Option (Str × Str)
  | [] => if pat = [] then some ([], []) else none
  | x :: xs =>
    if pat.isPrefixOf (x :: xs) then some ([], (x :: xs).drop pat.length)
    else (substrSplitOnce pat xs).map fun p => (x :: p.1, p.2)

/-- Whether a substring pattern occurs at all. -/
def occursSubstr (pat s : Str) : Bool := (substrSplitOnce pat s).isSome

/-- `CurieMapping` (meta/curie.rs): a bidirectional URI-pfx table. -/
abbrev CurieMapping := List (Str × Str)

/-- `CurieMapping::uri_for_curie` (meta/curie.rs). -/
def uriForCurie (m : CurieMapping) (curie : Curie) : Option Str :=
  (m.find? fun p => decide (p.2 = curie.ns)).map fun p => p.1 ++ curie.identifier

/-- `CurieMapping::curie_for_uri` (meta/curie.rs): the first table entry whose
URI piece splits the given URI into exactly two pieces. -/
def curieForUri (m : CurieMapping) (uri : Str) : Option Curie :=
  m.findSome? fun p =>
    match substrSplitOnce p.1 uri with
    | some (_, rest) =>
      if occursSubstr p.1 rest then none else some (Curie.new p.2 rest)
    | none => none

/-- `LabelMapping` (meta/curie.rs): a bidirectional label-URI table. -/
abbrev LabelMapping := List (Label × Str)

/-- `LabelMapping::label_uri` (meta/curie.rs). -/
def labelUri (m : LabelMapping) (label : Label) : Option Str :=
  (m.find? fun p => decide (p.1 = label)).map fun p => p.2

/-- `LabelMapping::uri_label` (meta/curie.rs). -/
def uriLabel (m : LabelMapping) (uri : Str) : Option Label :=
  (m.find? fun p => decide (p.2 = uri)).map fun p => p.1

/-- The forward table of `EcoCodeMapping` (meta/eco.rs). -/
abbrev EcoMapping := List ((EcoCode × Option Curie) × Curie)

/-- `EcoCodeMapping::eco_to_curie` (meta/eco.rs): keyed lookup with a
fallback to the `(code, None)` key. -/
def ecoToCurie (m : EcoMapping) (eco : EcoCode) (goref : Option Curie) :
    Option Curie :=
  ((m.find? fun p => decide (p.1 = (eco, goref))).map fun p => p.2).orElse
    fun _ => (m.find? fun p => decide (p.1 = (eco, (none : Option Curie)))).map
      fun p => p.2

/-- `Context` (meta/mod.rs). -/
structure Context where
  uriMapping : CurieMapping
  labelMapping : LabelMapping
  ecoMapping : EcoMapping
  ontology : Ontology
  deriving DecidableEq, Repr

/-- `Context::label_to_curie` (meta/mod.rs): label to URI to Curie. -/
def Context.labelToCurie (ctx : Context) (label : Label) : Option Curie :=
  (labelUri ctx.labelMapping label).bind fun uri => curieForUri ctx.uriMapping uri

/-- `Context::curie_to_label` (meta/mod.rs). -/
def Context.curieToLabel (ctx : Context) (curie : Curie) : Option Label :=
  (uriForCurie ctx.uriMapping curie).bind fun uri => uriLabel ctx.labelMapping uri

/-- `HasSubject for BaseGaf2_1Row` (annotation/gaf.rs): the subject id is
assembled directly from columns 0 and 1. -/
def hasSubject (row : BaseGaf21Row) (_ : Context) : Except Str Subject :=
  .ok { id := Curie.new row.f0.value row.f1.value
        label := row.f2
        fullname := row.f9
        synonyms := row.f10
        kind := row.f11
        taxon := some row.f12.first }

/-- `relation_from_aspect` (annotation/gaf.rs). -/
def relationFromAspect : Aspect → Curie
  | .BioProcess => Curie.new (str "RO") (str "0002331")
  | .CellComponent => Curie.new (str "BFO") (str "0000050")
  | .MolecularFunction => Curie.new (str "RO") (str "0002327")

/-- The explicit qualifier label carried by a row, when any
(annotation/gaf.rs `HasRelation`). -/
def qualifierLabel (row : BaseGaf21Row) : Option Label :=
  match row.f3 with
  | some (.Right label) => some label
  | some (.Both _ label) => some label
  | _ => none

/-- `HasRelation for BaseGaf2_1Row` (annotation/gaf.rs). -/
def hasRelationGaf (row : BaseGaf21Row) (ctx : Context) : Except Str Curie :=
  match qualifierLabel row with
  | some label =>
    match ctx.labelToCurie label with
    | some rel => .ok rel
    | none => .ok (relationFromAspect row.f8)
  | none => .ok (relationFromAspect row.f8)

/-- `HasTerm for BaseGaf2_1Row` (annotation/gaf.rs). -/
def hasTerm (row : BaseGaf21Row) (_ : Context) : Except Str Term :=
  if row.f4.sameNamespace (str "GO") then
    .ok { id := row.f4, taxon := some row.f12.first }
  else .error (str "Curie must be a GO term")

/-- `HasEvidence for BaseGaf2_1Row` (annotation/gaf.rs). -/
def hasEvidence (row : BaseGaf21Row) (ctx : Context) : Except Str Evidence :=
  let goref := (row.f5.filter fun c => c.sameNamespace (str "GO_REF")).head?
  match ecoToCurie ctx.ecoMapping row.f6 goref with
  | some curie =>
    .ok { id := curie
          hasSupportingReference := row.f5
          withSupportFrom := row.f7.map fun c => [c] }
  | none =>
    .error (str "Could not find ECO CURIE for `" ++ ecoName row.f6 ++ str "`")

/-- `HasMetadata for BaseGaf2_1Row` (annotation/gaf.rs). -/
def hasMetadata (row : BaseGaf21Row) (_ : Context) : Except Str Metadata :=
  .ok { negated :=
          match row.f3 with
          | some (.Both _ _) => true
          | some (.Left _) => true
          | _ => false
        aspect := some row.f8
        interactingTaxon :=
          match row.f12 with
          | .Two _ t => some t
          | _ => none
        providedBy := row.f14
        date := row.f13
        properties := [] }

/-- `HasExtensions for BaseGaf2_1Row` (annotation/gaf.rs). -/
def hasExtensions (row : BaseGaf21Row) (ctx : Context) : Except Str Extensions :=
  let subjectExtension := row.f16.map fun sub =>
    ClassExpression.mk (Curie.new (str "rdfs") (str "subClassOf")) sub
  let mapLabelExpression : ClassExpression Label Curie →
      Except Str (ClassExpression Curie Curie) := fun le =>
    match ctx.labelToCurie le.relation with
    | some curieRel => .ok (ClassExpression.mk curieRel le.filler)
    | none =>
      .error (str "Could not find relation CURIE for `" ++ le.relation.value ++ str "`")
  mapE (row.f15.mapM fun conj => conj.mapM mapLabelExpression)
    fun objectExtension => ⟨subjectExtension, objectExtension⟩

/-- `TryFrom<&AnnotationWithContext> for GoAssociation` (annotation/model.rs):
the six capabilities in fixed order, short-circuiting on first failure. -/
def goAssocTryFrom (row : BaseGaf21Row) (ctx : Context) :
    Except Str GoAssociation :=
  andThenE (hasSubject row ctx) fun subject =>
  andThenE (hasRelationGaf row ctx) fun relation =>
  andThenE (hasTerm row ctx) fun term =>
  andThenE (hasEvidence row ctx) fun evidence =>
  andThenE (hasMetadata row ctx) fun metadata =>
  mapE (hasExtensions row ctx) fun extensions =>
  GoAssociation.fromParts subject relation term evidence metadata extensions

/-- `convert_raw` (annotation/model.rs) instantiated at GAF 2.1. -/
def convertRaw (rec : RawGaf21Record) (ctx : Context) :
    Except Str GoAssociation :=
  andThenE (BaseGaf21Row.tryFrom rec) fun b => goAssocTryFrom b ctx

/-- `RuleState` (rules.rs), in declaration order. -/
inductive RuleState : Type
  | Ok | Warning | Repaired | Error
  deriving DecidableEq, Repr

/-- Discriminant of a `RuleState`, in declaration order. -/
def RuleState.toNat : RuleState → Nat
  | .Ok => 0
  | .Warning => 1
  | .Repaired => 2
  | .Error => 3

/-- The derived `PartialOrd` strict comparison on `RuleState` (rules.rs):
fieldless enums compare by discriminant. -/
def ruleStateLt (a b : RuleState) : Bool := a.toNat < b.toNat

/-- `RuleResult` (rules.rs). -/
structure RuleResult where
  rule : Str
  valid : Bool
  message : Str
  entity : Str
  entityName : Str
  state : RuleState
  deriving DecidableEq, Repr

/-- `RuleResult::new` (rules.rs), with its argument order. -/
def RuleResult.new (id message entity entityName : Str) (valid : Bool)
    (state : RuleState) : RuleResult :=
  ⟨id, valid, message, entity, entityName, state⟩

/-- `RuleTagResult` (rules.rs). -/
inductive RuleTagResult : Type
  | Pass (assoc : GoAssociation)
  | Warning (assoc : GoAssociation) (name offending : Str)
  | Repair (assoc : GoAssociation) (name offending : Str)
  | Error (name offending : Str)
  deriving DecidableEq, Repr

/-- `ResultSet` (rules.rs): the rule-id to result map, modelled as an
association list in insertion order. -/
abbrev ResultSet := List (Str × RuleResult)

/-- A single map insertion (`HashMap::insert` semantics). -/
def insertRS (rs : ResultSet) (k : Str) (v : RuleResult) : ResultSet :=
  rs.eraseP (fun p => decide (p.1 = k)) ++ [(k, v)]

/-- `ResultSet::add_result` (rules.rs). -/
def addResult (rs : ResultSet) (result : RuleResult) : ResultSet :=
  insertRS rs result.rule result

/-- `ResultSet::add_results` (rules.rs). -/
def addResults (rs : ResultSet) (results : List (Str × RuleResult)) : ResultSet :=
  results.foldl (fun acc pr => insertRS acc pr.1 pr.2) rs

/-- Map lookup on a `ResultSet`. -/
def lookupResult (rs : ResultSet) (k : Str) : Option RuleResult :=
  (rs.find? fun p => decide (p.1 = k)).map fun p => p.2

/-- `ResultSet::line_skipped` (rules.rs). -/
def lineSkipped (rs : ResultSet) : Bool :=
  rs.any fun p => decide (p.2.state = RuleState.Error)

/-- The loop body of `ResultSet::worst_level_state` (rules.rs): keep the
strictly greater state under the derived `PartialOrd`. -/
def worstStep (worst : Option RuleState) (p : Str × RuleResult) :
    Option RuleState :=
  match worst with
  | none => some p.2.state
  | some ws => if ruleStateLt ws p.2.state then some p.2.state else worst

/-- `ResultSet::worst_level_state` (rules.rs). -/
def worstLevelState (rs : ResultSet) : Option RuleState :=
  rs.foldl worstStep none

/-- The `Rule` trait data (rules.rs): id, description, and `rule_impl`.
`rule_impl` yields `none` when the Rust code would panic. -/
structure Rule where
  idNum : Nat
  descr : Str
  ruleImpl : GoAssociation → Context → Option RuleTagResult

/-- The rule id of `Rule::meta`: zero-padded `gorule-` format with width 7. -/
def ruleIdFmt (n : Nat) : Str :=
  let ds := Nat.toDigits 10 n
  str "gorule-" ++ List.replicate (7 - ds.length) '0' ++ ds

/-- `Rule::validate` (rules.rs): wraps the tag of `rule_impl` into the final
`RuleResult` paired with the resulting association; the `Error` tag keeps the
incoming association and is recorded with `valid = true` and
`RuleState::Warning`. -/
def ruleValidate (R : Rule) (association : GoAssociation) (ctx : Context) :
    Option (GoAssociation × RuleResult) :=
  (R.ruleImpl association ctx).map fun tag =>
    match tag with
    | .Pass assoc =>
      (assoc, RuleResult.new (ruleIdFmt R.idNum) R.descr (str "") (str "") true .Ok)
    | .Warning assoc name offending =>
      (assoc, RuleResult.new (ruleIdFmt R.idNum) R.descr offending name true .Warning)
    | .Repair assoc name offending =>
      (assoc, RuleResult.new (ruleIdFmt R.idNum) R.descr offending name true .Repaired)
    | .Error name offending =>
      (association, RuleResult.new (ruleIdFmt R.idNum) R.descr offending name true .Warning)

/-- `Rule02::rule_impl` (rules.rs). -/
def rule02Impl (association : GoAssociation) (_ : Context) : RuleTagResult :=
  let goterm := Curie.new (str "GO") (str "0005515")
  if association.object.id = goterm ∧ association.negated then
    .Warning association (str "GO Term") goterm.string
  else .Pass association

/-- `Rule02` (rules.rs); quotes in the description are dropped. -/
def rule02 : Rule :=
  ⟨2, str "No NOT annotations to protein binding ; GO:0005515",
    fun a c => some (rule02Impl a c)⟩

/-- The `Rule11::default` root-term list (rules.rs). -/
def rule11Roots : List Curie :=
  [Curie.new (str "GO") (str "0003674"), Curie.new (str "GO") (str "0005575"),
   Curie.new (str "GO") (str "0008150")]

/-- `Rule11::rule_impl` (rules.rs), with the default field values. -/
def rule11Impl (association : GoAssociation) (_ : Context) : RuleTagResult :=
  let nd := Curie.new (str "ECO") (str "0000307")
  if (rule11Roots.contains association.object.id ∧ association.evidence.id = nd)
      ∨ (¬ rule11Roots.contains association.object.id
          ∧ association.evidence.id ≠ nd) then
    .Pass association
  else
    .Error (str "GO Term") association.object.id.string

/-- `Rule11` (rules.rs). -/
def rule11 : Rule :=
  ⟨11, str "ND evidence code should be to root nodes only, and no terms other than root nodes can have the evidence code ND",
    fun a c => some (rule11Impl a c)⟩

/-- `Rule18::rule_impl` (rules.rs), exactly as written: for IPI evidence the
Pass and Warning branches hang off `with_support_from.items().is_empty()`. -/
def rule18Impl (association : GoAssociation) (_ : Context) : RuleTagResult :=
  let ipi := Curie.new (str "ECO") (str "0000353")
  if association.evidence.id = ipi then
    if association.evidence.withSupportFrom.isEmpty then
      .Pass association
    else
      .Warning association (str "with/from") (str "Empty")
  else .Pass association

/-- `Rule18` (rules.rs). -/
def rule18 : Rule :=
  ⟨18, str "IPI annotations require a With/From entry",
    fun a c => some (rule18Impl a c)⟩

/-- `Rule20::rule_impl` (rules.rs). `none` models the `.unwrap()` panic when
the prefix mapping has no entry for the term, and the `.expect` panic when
the replacement URI contracts to no Curie. -/
def rule20Impl (association : GoAssociation) (ctx : Context) :
    Option RuleTagResult :=
  match uriForCurie ctx.uriMapping association.object.id with
  | none => none
  | some goUri =>
    match ontologyNode ctx.ontology goUri with
    | some node =>
      if nodeDeprecated node then
        match nodeReplacedBy node with
        | some replaced =>
          match curieForUri ctx.uriMapping replaced with
          | none => none
          | some replCurie =>
            let assoc2 :=
              { association with object := { association.object with id := replCurie } }
            some (.Repair assoc2 (str "GO term repaired") assoc2.object.id.string)
        | none =>
          some (.Error (str "GO term could not be repaired")
            association.object.id.string)
      else some (.Pass association)
    | none =>
      some (.Error (str "GO term is not in ontology") association.object.id.string)

/-- `Rule20` (rules.rs). -/
def rule20 : Rule :=
  ⟨20, str "Automatic repair of annotations to merged or obsoleted terms",
    rule20Impl⟩

/-- `rules()` (rules.rs): the fixed, ordered rule list of the engine. -/
def rulesList : List Rule := [rule02, rule11, rule20]

/-- `run_rules` (rules.rs): run every rule in order, threading the current
association, then collect all results into a `ResultSet`. -/
def runRules (association : GoAssociation) (ctx : Context) :
    Option (GoAssociation × ResultSet) :=
  let looped :=
    rulesList.foldl
      (fun acc rule =>
        acc.bind fun cur =>
          (ruleValidate rule cur.1 ctx).map fun out =>
            (out.1, cur.2 ++ [(out.2.rule, out.2)]))
      (some (association, ([] : List (Str × RuleResult))))
  looped.map fun out => (out.1, addResults [] out.2)

/-- `From<String> for RuleResult` (validate.rs): a structural parse error is
recorded under gorule-0000001 with Error severity. -/
def ruleResultFromError (error : Str) : RuleResult :=
  RuleResult.new (str "gorule-0000001") error (str "") (str "") false .Error

/-- `validate_gaf_2_1` (validate.rs). -/
def validateGaf (line : RawGaf21Record) (ctx : Context) :
    Option (RawGaf21Record × Option GoAssociation × ResultSet) :=
  match convertRaw line ctx with
  | .ok assoc =>
    (runRules assoc ctx).map fun out =>
      if worstLevelState out.2 = some RuleState.Error then (line, none, out.2)
      else (line, some out.1, out.2)
  | .error err => some (line, none, addResult [] (ruleResultFromError err))

/-- Modelled from the spec: relation-resolution policy of §4.2, used as the
specification side of a refinement proof against `hasRelationGaf`. -/
def relationSpecAspect : Aspect → Curie
  | .BioProcess => Curie.new (str "RO") (str "0002331")
  | .CellComponent => Curie.new (str "BFO") (str "0000050")
  | .MolecularFunction => Curie.new (str "RO") (str "0002327")

/-- Modelled from the spec: if the row carries an explicit qualifier label
resolvable via the Context to a Curie, use it; else derive the relation
deterministically from the aspect. -/
def relationSpec (row : BaseGaf21Row) (ctx : Context) : Curie :=
  match qualifierLabel row with
  | some label =>
    match ctx.labelToCurie label with
    | some rel => rel
    | none => relationSpecAspect row.f8
  | none => relationSpecAspect row.f8

/-- A context holding only the GO prefix entry, one ECO table row for IMP,
and one live (non-deprecated) ontology node for GO:0003674. -/
def ctx0 : Context :=
  { uriMapping := [(str "http://purl.obolibrary.org/obo/GO_", str "GO")]
    labelMapping := []
    ecoMapping := [((EcoCode.IMP, none), Curie.new (str "ECO") (str "0000315"))]
    ontology := [(str "http://purl.obolibrary.org/obo/GO_0003674", ⟨none⟩)] }

/-- Association assembly used by the rules.rs unit tests. -/
def mkAssoc (term : Term) (evidence : Evidence) : GoAssociation :=
  GoAssociation.fromParts Subject.defaultValue
    (Curie.new (str "BFO") (str "0000050")) term evidence
    Metadata.defaultValue Extensions.defaultValue

/-- A root-term association carrying non-ND evidence: Rule11 emits its Error
tag on it. -/
def assoc0 : GoAssociation :=
  mkAssoc ⟨Curie.new (str "GO") (str "0003674"), none⟩
    { Evidence.defaultValue with id := Curie.new (str "ECO") (str "0000353") }

/-- An IPI-evidence association with a non-empty with/from list. -/
def assocIPIFull : GoAssociation :=
  mkAssoc ⟨Curie.new (str "GO") (str "0003674"), none⟩
    { Evidence.defaultValue with
        id := Curie.new (str "ECO") (str "0000353")
        withSupportFrom := [[Curie.new (str "MGI") (str "1")]] }

/-- An association whose term namespace is absent from the ctx0 prefix table. -/
def assocWB : GoAssociation :=
  mkAssoc ⟨Curie.new (str "WB") (str "1"), none⟩ Evidence.defaultValue

/-- A raw record whose first column is empty and otherwise converts cleanly
under ctx0. -/
def rec4 : RawGaf21Record :=
  { c0 := str ""
    c1 := str "MGI"
    c2 := str "g"
    c3 := none
    c4 := str "GO:1"
    c5 := str ""
    c6 := str "IMP"
    c7 := str ""
    c8 := 'P'
    c9 := none
    c10 := str ""
    c11 := str "protein"
    c12 := str "taxon:1"
    c13 := str "20200101"
    c14 := str "T"
    c15 := str ""
    c16 := none }

/-- A raw record whose 3rd column holds a space and whose 4th column would
also fail to parse. -/
def rec8 : RawGaf21Record :=
  { rec4 with c2 := str "a b", c3 := some (str "NOT|x y") }

/-- An association whose GO term is absent from the ctx0 ontology. -/
def assocGOMissing : GoAssociation :=
  mkAssoc ⟨Curie.new (str "GO") (str "9999999"), none⟩ Evidence.defaultValue

/-- C6 counterexample: in the derived severity order actually used by
`worst_level_state`, Warning is strictly below Repaired, so the two are not
equal in rank as the claim states. -/
theorem c6_warning_strictly_below_repair :
    ruleStateLt RuleState.Warning RuleState.Repaired = true := by decide

/-- C6 (amended): the severity order used for worst-observed comparisons is
the strict total order Pass < Warning < Repair < Error; Warning and Repair do
not tie. -/
theorem c6_severity_strict_total_order :
    ruleStateLt RuleState.Ok RuleState.Warning = true ∧
    ruleStateLt RuleState.Warning RuleState.Repaired = true ∧
    ruleStateLt RuleState.Repaired RuleState.Error = true ∧
    ruleStateLt RuleState.Ok RuleState.Repaired = true ∧
    ruleStateLt RuleState.Ok RuleState.Error = true ∧
    ruleStateLt RuleState.Warning RuleState.Error = true ∧
    (∀ a b : RuleState, (ruleStateLt a b && ruleStateLt b a) = false) := by
  refine ⟨by decide, by decide, by decide, by decide, by decide, by decide, ?_⟩
  intro a b
  cases a <;> cases b <;> decide

/-- C2: Rule18 is inverted with respect to its own description: on IPI
evidence it passes an association whose with/from list is empty and warns on
an association whose with/from list is non-empty. -/
theorem c2_rule18_inverted :
    rule18Impl assoc0 ctx0 = RuleTagResult.Pass assoc0 ∧
    rule18Impl assocIPIFull ctx0 =
      RuleTagResult.Warning assocIPIFull (str "with/from") (str "Empty") := by
  decide

/-- C3: Rule20 aborts (models the `.unwrap()` panic) when the prefix mapping
of the context has no entry for the namespace of the term, while a term missing
from the classification collaborator itself does yield an Error verdict. -/
theorem c3_rule20_panics_on_missing_mapping :
    rule20Impl assocWB ctx0 = none ∧
    rule20Impl assocGOMissing ctx0 =
      some (RuleTagResult.Error (str "GO term is not in ontology")
        (Curie.new (str "GO") (str "9999999")).string) := by
  decide

/-- C1: on an association where Rule11 emits its Error tag, the engine does
retain the pre-rule association and still runs Rule20 afterwards, but the
entry recorded for Rule11 carries Warning severity with valid = true, not
Error severity. -/
theorem c1_error_tag_recorded_as_warning :
    (runRules assoc0 ctx0).map (fun out => out.1) = some assoc0 ∧
    ((runRules assoc0 ctx0).bind fun out =>
        lookupResult out.2 (ruleIdFmt 11)).map (fun r => (r.state, r.valid)) =
      some (RuleState.Warning, true) ∧
    ((runRules assoc0 ctx0).bind fun out =>
        lookupResult out.2 (ruleIdFmt 20)).isSome = true := by
  decide

/-- C5 counterexample: parsing the empty string as a `Conjunction` of Curies
does not succeed with zero elements — it fails. -/
theorem c5_conjunction_empty_fails :
    (conjunctionTryFrom Curie.tryFrom (str "")).isOk = false := by decide

/-- C5 (amended): a `ListField` parses the empty string to zero elements for
every inner parser, but `Conjunction` has no empty-string special case: it
parses the lone empty segment, so with an inner type rejecting empty text
(such as Curie) the empty string fails. -/
theorem c5_empty_string_parses :
    (∀ (α : Type) (p : Str → Except Str α),
        listFieldTryFrom p (str "") = .ok []) ∧
    (∃ e, conjunctionTryFrom Curie.tryFrom (str "") = .error e) := by
  constructor
  · intro α p
    rfl
  · exact ⟨_, rfl⟩

/-- C4 counterexample: the conversion pipeline accepts a record whose first
column is empty and produces an Association whose subject Curie has an empty
namespace, because `HasSubject` pairs the two raw columns without the
non-emptiness checks of Curie parsing. -/
theorem c4_pipeline_curie_can_be_empty :
    mapE (convertRaw rec4 ctx0) (fun a => a.subject.id.ns) = .ok [] := by
  decide

/-- C4 (amended): parsing a Curie from text splits on the first colon and
fails whenever the namespace or the identifier would be empty, so every Curie
parsed from a field has non-empty parts; however the subject Curie of a
converted Association is assembled directly from the first two row columns
and is only as non-empty as those columns are. -/
theorem c4_curie_parse_invariant :
    (∀ (s : Str) (c : Curie), Curie.tryFrom s = .ok c →
      c.ns ≠ [] ∧ c.identifier ≠ [] ∧ s = c.ns ++ ':' :: c.identifier ∧
        ':' ∉ c.ns) ∧
    (∀ a b : Str, ':' ∉ a → (a = [] ∨ b = []) →
      ∃ e, Curie.tryFrom (a ++ ':' :: b) = .error e) ∧
    (∀ s : Str, ':' ∉ s → ∃ e, Curie.tryFrom s = .error e) := by
  refine ⟨?_, ?_, ?_⟩
  · intro s c h
    rw [Curie.tryFrom] at h
    rcases hsp : splitFirst ':' s with _ | ⟨a, b⟩
    · rw [hsp] at h; simp at h
    · rw [hsp] at h
      obtain ⟨hs, hna⟩ := splitFirst_eq_some hsp
      dsimp only at h
      split_ifs at h with h1 h2 h3
      injection h with h
      subst h
      exact ⟨h2, h3, hs, hna⟩
  · intro a b hna hab
    have hsp := splitFirst_append (c := ':') b hna
    rw [Curie.tryFrom, hsp]
    rcases hab with rfl | rfl
    · dsimp only
      split_ifs with h1 h2 h3
      · exact ⟨_, rfl⟩
      · exact ⟨_, rfl⟩
      · exact ⟨_, rfl⟩
      · exact absurd rfl h2
    · dsimp only
      split_ifs with h1 h2 h3
      · exact ⟨_, rfl⟩
      · exact ⟨_, rfl⟩
      · exact ⟨_, rfl⟩
      · exact absurd rfl h3
  · intro s hns
    rw [Curie.tryFrom, splitFirst_eq_none_iff.mpr hns]
    exact ⟨_, rfl⟩

/-- C4 witness: the parse facts of `c4_curie_parse_invariant` at concrete
inputs GO:1, :1 and abc. -/
theorem c4_curie_parse_invariant_witness :
    (str "GO:1" = str "GO" ++ ':' :: str "1" ∧ ':' ∉ str "GO") ∧
    (∃ e, Curie.tryFrom (([] : Str) ++ ':' :: str "1") = .error e) ∧
    (∃ e, Curie.tryFrom (str "abc") = .error e) := by
  refine ⟨?_, ?_, ?_⟩
  · have h := c4_curie_parse_invariant.1 (str "GO:1")
      (Curie.new (str "GO") (str "1")) (by decide)
    exact ⟨h.2.2.1, h.2.2.2⟩
  · exact c4_curie_parse_invariant.2.1 [] (str "1") (by decide) (Or.inl rfl)
  · exact c4_curie_parse_invariant.2.2 (str "abc") (by decide)

/-- C9: the aggregate-error law for ListField parsing: on non-empty input,
if any pipe-separated segment fails then the whole parse fails with one
message that contains every failing segment, and if all segments parse the
items are kept in input order. -/
theorem c9_aggregate_error_law (α : Type) (p : Str → Except Str α)
    (entity : Str) (hne : entity ≠ []) :
    ((∃ seg ∈ splitAll '|' entity, ∃ e, p seg = .error e) →
      ∃ msg, listFieldTryFrom p entity = .error msg ∧
        ∀ seg ∈ splitAll '|' entity, (∃ e, p seg = .error e) → seg <:+: msg) ∧
    ((∀ seg ∈ splitAll '|' entity, ∃ a, p seg = .ok a) →
      listFieldTryFrom p entity =
        .ok ((splitAll '|' entity).filterMap fun s => (p s).toOption)) := by
  constructor
  · rintro ⟨seg0, hseg0, e0, he0⟩
    have herr : ¬ errorsOf ((splitAll '|' entity).map p) = [] := by
      intro hnil
      rw [errorsOf, List.filterMap_eq_nil_iff] at hnil
      have hmem : p seg0 ∈ (splitAll '|' entity).map p :=
        List.mem_map_of_mem p hseg0
      have := hnil (p seg0) hmem
      rw [he0] at this
      simp at this
    rw [listFieldTryFrom, if_neg hne, if_neg herr]
    refine ⟨_, rfl, ?_⟩
    rintro seg hseg ⟨e, _⟩
    refine (mem_splitAll_within hseg).trans ?_
    exact ⟨str "Errors parsing `",
      str "`: " ++ List.intercalate (str "; ") (errorsOf ((splitAll '|' entity).map p)),
      by simp [List.append_assoc]⟩
  · intro hall
    have herr : errorsOf ((splitAll '|' entity).map p) = [] := by
      rw [errorsOf, List.filterMap_eq_nil_iff]
      intro r hr
      obtain ⟨s, hs, rfl⟩ := List.mem_map.mp hr
      obtain ⟨a, ha⟩ := hall s hs
      rw [ha]
    rw [listFieldTryFrom, if_neg hne, if_pos herr]
    congr 1
    rw [oksOf, List.filterMap_map]
    have hfun : ((fun r => match r with | .ok a => some a | .error _ => none) ∘ p)
        = fun s : Str => (p s).toOption := by
      funext s
      simp only [Function.comp_apply]
      cases p s <;> rfl
    rw [hfun]

/-- C9 witness: parsing `GO:1|bad1|bad2` as a ListField of Curies yields one
error message that mentions both bad1 and bad2. -/
theorem c9_aggregate_error_law_witness :
    ∃ msg, listFieldTryFrom Curie.tryFrom (str "GO:1|bad1|bad2") = .error msg ∧
      str "bad1" <:+: msg ∧ str "bad2" <:+: msg := by
  obtain ⟨msg, hmsg, hall⟩ :=
    (c9_aggregate_error_law _ Curie.tryFrom (str "GO:1|bad1|bad2") (by decide)).1
      ⟨str "bad1", by decide, _, rfl⟩
  exact ⟨msg, hmsg, hall (str "bad1") (by decide) ⟨_, rfl⟩,
    hall (str "bad2") (by decide) ⟨_, rfl⟩⟩

theorem relationFromAspect_eq_spec (a : Aspect) :
    relationFromAspect a = relationSpecAspect a := by
  cases a <;> rfl

/-- C7: relation resolution is total and matches the spec policy for every
typed row and context: a qualifier label the Context resolves wins, and
otherwise the aspect determines the relation (BioProcess gives RO:0002331,
CellComponent gives BFO:0000050, MolecularFunction gives RO:0002327), so it
never fails. -/
theorem c7_relation_resolution_total (row : BaseGaf21Row) (ctx : Context) :
    hasRelationGaf row ctx = .ok (relationSpec row ctx) := by
  cases hq : qualifierLabel row with
  | none =>
    simp only [hasRelationGaf, relationSpec, hq, relationFromAspect_eq_spec]
  | some label =>
    cases hl : ctx.labelToCurie label with
    | none =>
      simp only [hasRelationGaf, relationSpec, hq, hl, relationFromAspect_eq_spec]
    | some rel =>
      simp only [hasRelationGaf, relationSpec, hq, hl]

/-- C8: raw-row validation is fail-fast strictly left to right: when the
columns before `i` all parse and column `i` fails, the error of the conversion is
exactly the error message of column `i`. -/
theorem c8_fail_fast (r : RawGaf21Record) (i : Nat) (e : Str) (hi : i < 17)
    (hprev : ∀ j, j < i → (colParse r j).isOk = true)
    (hfail : colParse r i = .error e) :
    BaseGaf21Row.tryFrom r = .error e := by
  interval_cases i
  ·
    have hf : parseCol0 r = .error e := by
      simpa [colParse, mapE_eq_error_iff] using hfail
    simp [BaseGaf21Row.tryFrom,  hf]
  ·
    obtain ⟨a0, h0⟩ := exists_ok_of_isOk (by simpa [colParse] using hprev 0 (by omega))
    have hf : parseCol1 r = .error e := by
      simpa [colParse, mapE_eq_error_iff] using hfail
    simp [BaseGaf21Row.tryFrom, h0, hf]
  ·
    obtain ⟨a0, h0⟩ := exists_ok_of_isOk (by simpa [colParse] using hprev 0 (by omega))
    obtain ⟨a1, h1⟩ := exists_ok_of_isOk (by simpa [colParse] using hprev 1 (by omega))
    have hf : parseCol2 r = .error e := by
      simpa [colParse, mapE_eq_error_iff] using hfail
    simp [BaseGaf21Row.tryFrom, h0, h1, hf]
  ·
    obtain ⟨a0, h0⟩ := exists_ok_of_isOk (by simpa [colParse] using hprev 0 (by omega))
    obtain ⟨a1, h1⟩ := exists_ok_of_isOk (by simpa [colParse] using hprev 1 (by omega))
    obtain ⟨a2, h2⟩ := exists_ok_of_isOk (by simpa [colParse] using hprev 2 (by omega))
    have hf : parseCol3 r = .error e := by
      simpa [colParse, mapE_eq_error_iff] using hfail
    simp [BaseGaf21Row.tryFrom, h0, h1, h2, hf]
  ·
    obtain ⟨a0, h0⟩ := exists_ok_of_isOk (by simpa [colParse] using hprev 0 (by omega))
    obtain ⟨a1, h1⟩ := exists_ok_of_isOk (by simpa [colParse] using hprev 1 (by omega))
    obtain ⟨a2, h2⟩ := exists_ok_of_isOk (by simpa [colParse] using hprev 2 (by omega))
    obtain ⟨a3, h3⟩ := exists_ok_of_isOk (by simpa [colParse] using hprev 3 (by omega))
    have hf : parseCol4 r = .error e := by
      simpa [colParse, mapE_eq_error_iff] using hfail
    simp [BaseGaf21Row.tryFrom, h0, h1, h2, h3, hf]
  ·
    obtain ⟨a0, h0⟩ := exists_ok_of_isOk (by simpa [colParse] using hprev 0 (by omega))
    obtain ⟨a1, h1⟩ := exists_ok_of_isOk (by simpa [colParse] using hprev 1 (by omega))
    obtain ⟨a2, h2⟩ := exists_ok_of_isOk (by simpa [colParse] using hprev 2 (by omega))
    obtain ⟨a3, h3⟩ := exists_ok_of_isOk (by simpa [colParse] using hprev 3 (by omega))
    obtain ⟨a4, h4⟩ := exists_ok_of_isOk (by simpa [colParse] using hprev 4 (by omega))
    have hf : parseCol5 r = .error e := by
      simpa [colParse, mapE_eq_error_iff] using hfail
    simp [BaseGaf21Row.tryFrom, h0, h1, h2, h3, h4, hf]
  ·
    obtain ⟨a0, h0⟩ := exists_ok_of_isOk (by simpa [colParse] using hprev 0 (by omega))
    obtain ⟨a1, h1⟩ := exists_ok_of_isOk (by simpa [colParse] using hprev 1 (by omega))
    obtain ⟨a2, h2⟩ := exists_ok_of_isOk (by simpa [colParse] using hprev 2 (by omega))
    obtain ⟨a3, h3⟩ := exists_ok_of_isOk (by simpa [colParse] using hprev 3 (by omega))
    obtain ⟨a4, h4⟩ := exists_ok_of_isOk (by simpa [colParse] using hprev 4 (by omega))
    obtain ⟨a5, h5⟩ := exists_ok_of_isOk (by simpa [colParse] using hprev 5 (by omega))
    have hf : parseCol6 r = .error e := by
      simpa [colParse, mapE_eq_error_iff] using hfail
    simp [BaseGaf21Row.tryFrom, h0, h1, h2, h3, h4, h5, hf]
  ·
    obtain ⟨a0, h0⟩ := exists_ok_of_isOk (by simpa [colParse] using hprev 0 (by omega))
    obtain ⟨a1, h1⟩ := exists_ok_of_isOk (by simpa [colParse] using hprev 1 (by omega))
    obtain ⟨a2, h2⟩ := exists_ok_of_isOk (by simpa [colParse] using hprev 2 (by omega))
    obtain ⟨a3, h3⟩ := exists_ok_of_isOk (by simpa [colParse] using hprev 3 (by omega))
    obtain ⟨a4, h4⟩ := exists_ok_of_isOk (by simpa [colParse] using hprev 4 (by omega))
    obtain ⟨a5, h5⟩ := exists_ok_of_isOk (by simpa [colParse] using hprev 5 (by omega))
    obtain ⟨a6, h6⟩ := exists_ok_of_isOk (by simpa [colParse] using hprev 6 (by omega))
    have hf : parseCol7 r = .error e := by
      simpa [colParse, mapE_eq_error_iff] using hfail
    simp [BaseGaf21Row.tryFrom, h0, h1, h2, h3, h4, h5, h6, hf]
  ·
    obtain ⟨a0, h0⟩ := exists_ok_of_isOk (by simpa [colParse] using hprev 0 (by omega))
    obtain ⟨a1, h1⟩ := exists_ok_of_isOk (by simpa [colParse] using hprev 1 (by omega))
    obtain ⟨a2, h2⟩ := exists_ok_of_isOk (by simpa [colParse] using hprev 2 (by omega))
    obtain ⟨a3, h3⟩ := exists_ok_of_isOk (by simpa [colParse] using hprev 3 (by omega))
    obtain ⟨a4, h4⟩ := exists_ok_of_isOk (by simpa [colParse] using hprev 4 (by omega))
    obtain ⟨a5, h5⟩ := exists_ok_of_isOk (by simpa [colParse] using hprev 5 (by omega))
    obtain ⟨a6, h6⟩ := exists_ok_of_isOk (by simpa [colParse] using hprev 6 (by omega))
    obtain ⟨a7, h7⟩ := exists_ok_of_isOk (by simpa [colParse] using hprev 7 (by omega))
    have hf : parseCol8 r = .error e := by
      simpa [colParse, mapE_eq_error_iff] using hfail
    simp [BaseGaf21Row.tryFrom, h0, h1, h2, h3, h4, h5, h6, h7, hf]
  ·
    obtain ⟨a0, h0⟩ := exists_ok_of_isOk (by simpa [colParse] using hprev 0 (by omega))
    obtain ⟨a1, h1⟩ := exists_ok_of_isOk (by simpa [colParse] using hprev 1 (by omega))
    obtain ⟨a2, h2⟩ := exists_ok_of_isOk (by simpa [colParse] using hprev 2 (by omega))
    obtain ⟨a3, h3⟩ := exists_ok_of_isOk (by simpa [colParse] using hprev 3 (by omega))
    obtain ⟨a4, h4⟩ := exists_ok_of_isOk (by simpa [colParse] using hprev 4 (by omega))
    obtain ⟨a5, h5⟩ := exists_ok_of_isOk (by simpa [colParse] using hprev 5 (by omega))
    obtain ⟨a6, h6⟩ := exists_ok_of_isOk (by simpa [colParse] using hprev 6 (by omega))
    obtain ⟨a7, h7⟩ := exists_ok_of_isOk (by simpa [colParse] using hprev 7 (by omega))
    obtain ⟨a8, h8⟩ := exists_ok_of_isOk (by simpa [colParse] using hprev 8 (by omega))
    have hf : parseCol9 r = .error e := by
      simpa [colParse, mapE_eq_error_iff] using hfail
    simp [BaseGaf21Row.tryFrom, h0, h1, h2, h3, h4, h5, h6, h7, h8, hf]
  ·
    obtain ⟨a0, h0⟩ := exists_ok_of_isOk (by simpa [colParse] using hprev 0 (by omega))
    obtain ⟨a1, h1⟩ := exists_ok_of_isOk (by simpa [colParse] using hprev 1 (by omega))
    obtain ⟨a2, h2⟩ := exists_ok_of_isOk (by simpa [colParse] using hprev 2 (by omega))
    obtain ⟨a3, h3⟩ := exists_ok_of_isOk (by simpa [colParse] using hprev 3 (by omega))
    obtain ⟨a4, h4⟩ := exists_ok_of_isOk (by simpa [colParse] using hprev 4 (by omega))
    obtain ⟨a5, h5⟩ := exists_ok_of_isOk (by simpa [colParse] using hprev 5 (by omega))
    obtain ⟨a6, h6⟩ := exists_ok_of_isOk (by simpa [colParse] using hprev 6 (by omega))
    obtain ⟨a7, h7⟩ := exists_ok_of_isOk (by simpa [colParse] using hprev 7 (by omega))
    obtain ⟨a8, h8⟩ := exists_ok_of_isOk (by simpa [colParse] using hprev 8 (by omega))
    obtain ⟨a9, h9⟩ := exists_ok_of_isOk (by simpa [colParse] using hprev 9 (by omega))
    have hf : parseCol10 r = .error e := by
      simpa [colParse, mapE_eq_error_iff] using hfail
    simp [BaseGaf21Row.tryFrom, h0, h1, h2, h3, h4, h5, h6, h7, h8, h9, hf]
  ·
    obtain ⟨a0, h0⟩ := exists_ok_of_isOk (by simpa [colParse] using hprev 0 (by omega))
    obtain ⟨a1, h1⟩ := exists_ok_of_isOk (by simpa [colParse] using hprev 1 (by omega))
    obtain ⟨a2, h2⟩ := exists_ok_of_isOk (by simpa [colParse] using hprev 2 (by omega))
    obtain ⟨a3, h3⟩ := exists_ok_of_isOk (by simpa [colParse] using hprev 3 (by omega))
    obtain ⟨a4, h4⟩ := exists_ok_of_isOk (by simpa [colParse] using hprev 4 (by omega))
    obtain ⟨a5, h5⟩ := exists_ok_of_isOk (by simpa [colParse] using hprev 5 (by omega))
    obtain ⟨a6, h6⟩ := exists_ok_of_isOk (by simpa [colParse] using hprev 6 (by omega))
    obtain ⟨a7, h7⟩ := exists_ok_of_isOk (by simpa [colParse] using hprev 7 (by omega))
    obtain ⟨a8, h8⟩ := exists_ok_of_isOk (by simpa [colParse] using hprev 8 (by omega))
    obtain ⟨a9, h9⟩ := exists_ok_of_isOk (by simpa [colParse] using hprev 9 (by omega))
    obtain ⟨a10, h10⟩ := exists_ok_of_isOk (by simpa [colParse] using hprev 10 (by omega))
    have hf : parseCol11 r = .error e := by
      simpa [colParse, mapE_eq_error_iff] using hfail
    simp [BaseGaf21Row.tryFrom, h0, h1, h2, h3, h4, h5, h6, h7, h8, h9, h10, hf]
  ·
    obtain ⟨a0, h0⟩ := exists_ok_of_isOk (by simpa [colParse] using hprev 0 (by omega))
    obtain ⟨a1, h1⟩ := exists_ok_of_isOk (by simpa [colParse] using hprev 1 (by omega))
    obtain ⟨a2, h2⟩ := exists_ok_of_isOk (by simpa [colParse] using hprev 2 (by omega))
    obtain ⟨a3, h3⟩ := exists_ok_of_isOk (by simpa [colParse] using hprev 3 (by omega))
    obtain ⟨a4, h4⟩ := exists_ok_of_isOk (by simpa [colParse] using hprev 4 (by omega))
    obtain ⟨a5, h5⟩ := exists_ok_of_isOk (by simpa [colParse] using hprev 5 (by omega))
    obtain ⟨a6, h6⟩ := exists_ok_of_isOk (by simpa [colParse] using hprev 6 (by omega))
    obtain ⟨a7, h7⟩ := exists_ok_of_isOk (by simpa [colParse] using hprev 7 (by omega))
    obtain ⟨a8, h8⟩ := exists_ok_of_isOk (by simpa [colParse] using hprev 8 (by omega))
    obtain ⟨a9, h9⟩ := exists_ok_of_isOk (by simpa [colParse] using hprev 9 (by omega))
    obtain ⟨a10, h10⟩ := exists_ok_of_isOk (by simpa [colParse] using hprev 10 (by omega))
    obtain ⟨a11, h11⟩ := exists_ok_of_isOk (by simpa [colParse] using hprev 11 (by omega))
    have hf : parseCol12 r = .error e := by
      simpa [colParse, mapE_eq_error_iff] using hfail
    simp [BaseGaf21Row.tryFrom, h0, h1, h2, h3, h4, h5, h6, h7, h8, h9, h10, h11, hf]
  ·
    obtain ⟨a0, h0⟩ := exists_ok_of_isOk (by simpa [colParse] using hprev 0 (by omega))
    obtain ⟨a1, h1⟩ := exists_ok_of_isOk (by simpa [colParse] using hprev 1 (by omega))
    obtain ⟨a2, h2⟩ := exists_ok_of_isOk (by simpa [colParse] using hprev 2 (by omega))
    obtain ⟨a3, h3⟩ := exists_ok_of_isOk (by simpa [colParse] using hprev 3 (by omega))
    obtain ⟨a4, h4⟩ := exists_ok_of_isOk (by simpa [colParse] using hprev 4 (by omega))
    obtain ⟨a5, h5⟩ := exists_ok_of_isOk (by simpa [colParse] using hprev 5 (by omega))
    obtain ⟨a6, h6⟩ := exists_ok_of_isOk (by simpa [colParse] using hprev 6 (by omega))
    obtain ⟨a7, h7⟩ := exists_ok_of_isOk (by simpa [colParse] using hprev 7 (by omega))
    obtain ⟨a8, h8⟩ := exists_ok_of_isOk (by simpa [colParse] using hprev 8 (by omega))
    obtain ⟨a9, h9⟩ := exists_ok_of_isOk (by simpa [colParse] using hprev 9 (by omega))
    obtain ⟨a10, h10⟩ := exists_ok_of_isOk (by simpa [colParse] using hprev 10 (by omega))
    obtain ⟨a11, h11⟩ := exists_ok_of_isOk (by simpa [colParse] using hprev 11 (by omega))
    obtain ⟨a12, h12⟩ := exists_ok_of_isOk (by simpa [colParse] using hprev 12 (by omega))
    have hf : parseCol13 r = .error e := by
      simpa [colParse, mapE_eq_error_iff] using hfail
    simp [BaseGaf21Row.tryFrom, h0, h1, h2, h3, h4, h5, h6, h7, h8, h9, h10, h11, h12, hf]
  ·
    obtain ⟨a0, h0⟩ := exists_ok_of_isOk (by simpa [colParse] using hprev 0 (by omega))
    obtain ⟨a1, h1⟩ := exists_ok_of_isOk (by simpa [colParse] using hprev 1 (by omega))
    obtain ⟨a2, h2⟩ := exists_ok_of_isOk (by simpa [colParse] using hprev 2 (by omega))
    obtain ⟨a3, h3⟩ := exists_ok_of_isOk (by simpa [colParse] using hprev 3 (by omega))
    obtain ⟨a4, h4⟩ := exists_ok_of_isOk (by simpa [colParse] using hprev 4 (by omega))
    obtain ⟨a5, h5⟩ := exists_ok_of_isOk (by simpa [colParse] using hprev 5 (by omega))
    obtain ⟨a6, h6⟩ := exists_ok_of_isOk (by simpa [colParse] using hprev 6 (by omega))
    obtain ⟨a7, h7⟩ := exists_ok_of_isOk (by simpa [colParse] using hprev 7 (by omega))
    obtain ⟨a8, h8⟩ := exists_ok_of_isOk (by simpa [colParse] using hprev 8 (by omega))
    obtain ⟨a9, h9⟩ := exists_ok_of_isOk (by simpa [colParse] using hprev 9 (by omega))
    obtain ⟨a10, h10⟩ := exists_ok_of_isOk (by simpa [colParse] using hprev 10 (by omega))
    obtain ⟨a11, h11⟩ := exists_ok_of_isOk (by simpa [colParse] using hprev 11 (by omega))
    obtain ⟨a12, h12⟩ := exists_ok_of_isOk (by simpa [colParse] using hprev 12 (by omega))
    obtain ⟨a13, h13⟩ := exists_ok_of_isOk (by simpa [colParse] using hprev 13 (by omega))
    have hf : parseCol14 r = .error e := by
      simpa [colParse, mapE_eq_error_iff] using hfail
    simp [BaseGaf21Row.tryFrom, h0, h1, h2, h3, h4, h5, h6, h7, h8, h9, h10, h11, h12, h13, hf]
  ·
    obtain ⟨a0, h0⟩ := exists_ok_of_isOk (by simpa [colParse] using hprev 0 (by omega))
    obtain ⟨a1, h1⟩ := exists_ok_of_isOk (by simpa [colParse] using hprev 1 (by omega))
    obtain ⟨a2, h2⟩ := exists_ok_of_isOk (by simpa [colParse] using hprev 2 (by omega))
    obtain ⟨a3, h3⟩ := exists_ok_of_isOk (by simpa [colParse] using hprev 3 (by omega))
    obtain ⟨a4, h4⟩ := exists_ok_of_isOk (by simpa [colParse] using hprev 4 (by omega))
    obtain ⟨a5, h5⟩ := exists_ok_of_isOk (by simpa [colParse] using hprev 5 (by omega))
    obtain ⟨a6, h6⟩ := exists_ok_of_isOk (by simpa [colParse] using hprev 6 (by omega))
    obtain ⟨a7, h7⟩ := exists_ok_of_isOk (by simpa [colParse] using hprev 7 (by omega))
    obtain ⟨a8, h8⟩ := exists_ok_of_isOk (by simpa [colParse] using hprev 8 (by omega))
    obtain ⟨a9, h9⟩ := exists_ok_of_isOk (by simpa [colParse] using hprev 9 (by omega))
    obtain ⟨a10, h10⟩ := exists_ok_of_isOk (by simpa [colParse] using hprev 10 (by omega))
    obtain ⟨a11, h11⟩ := exists_ok_of_isOk (by simpa [colParse] using hprev 11 (by omega))
    obtain ⟨a12, h12⟩ := exists_ok_of_isOk (by simpa [colParse] using hprev 12 (by omega))
    obtain ⟨a13, h13⟩ := exists_ok_of_isOk (by simpa [colParse] using hprev 13 (by omega))
    obtain ⟨a14, h14⟩ := exists_ok_of_isOk (by simpa [colParse] using hprev 14 (by omega))
    have hf : parseCol15 r = .error e := by
      simpa [colParse, mapE_eq_error_iff] using hfail
    simp [BaseGaf21Row.tryFrom, h0, h1, h2, h3, h4, h5, h6, h7, h8, h9, h10, h11, h12, h13, h14, hf]
  ·
    obtain ⟨a0, h0⟩ := exists_ok_of_isOk (by simpa [colParse] using hprev 0 (by omega))
    obtain ⟨a1, h1⟩ := exists_ok_of_isOk (by simpa [colParse] using hprev 1 (by omega))
    obtain ⟨a2, h2⟩ := exists_ok_of_isOk (by simpa [colParse] using hprev 2 (by omega))
    obtain ⟨a3, h3⟩ := exists_ok_of_isOk (by simpa [colParse] using hprev 3 (by omega))
    obtain ⟨a4, h4⟩ := exists_ok_of_isOk (by simpa [colParse] using hprev 4 (by omega))
    obtain ⟨a5, h5⟩ := exists_ok_of_isOk (by simpa [colParse] using hprev 5 (by omega))
    obtain ⟨a6, h6⟩ := exists_ok_of_isOk (by simpa [colParse] using hprev 6 (by omega))
    obtain ⟨a7, h7⟩ := exists_ok_of_isOk (by simpa [colParse] using hprev 7 (by omega))
    obtain ⟨a8, h8⟩ := exists_ok_of_isOk (by simpa [colParse] using hprev 8 (by omega))
    obtain ⟨a9, h9⟩ := exists_ok_of_isOk (by simpa [colParse] using hprev 9 (by omega))
    obtain ⟨a10, h10⟩ := exists_ok_of_isOk (by simpa [colParse] using hprev 10 (by omega))
    obtain ⟨a11, h11⟩ := exists_ok_of_isOk (by simpa [colParse] using hprev 11 (by omega))
    obtain ⟨a12, h12⟩ := exists_ok_of_isOk (by simpa [colParse] using hprev 12 (by omega))
    obtain ⟨a13, h13⟩ := exists_ok_of_isOk (by simpa [colParse] using hprev 13 (by omega))
    obtain ⟨a14, h14⟩ := exists_ok_of_isOk (by simpa [colParse] using hprev 14 (by omega))
    obtain ⟨a15, h15⟩ := exists_ok_of_isOk (by simpa [colParse] using hprev 15 (by omega))
    have hf : parseCol16 r = .error e := by
      simpa [colParse, mapE_eq_error_iff] using hfail
    simp [BaseGaf21Row.tryFrom, h0, h1, h2, h3, h4, h5, h6, h7, h8, h9, h10, h11, h12, h13, h14, h15, hf]

/-- C8 witness: a record with an invalid 3rd column (a space) and an invalid
4th column reports only the error of the 3rd column. -/
theorem c8_fail_fast_witness :
    (colParse rec8 0).isOk = true ∧ (colParse rec8 1).isOk = true ∧
    colParse rec8 2 = .error (str "Spaces are not allowed") ∧
    BaseGaf21Row.tryFrom rec8 = .error (str "Spaces are not allowed") := by
  refine ⟨by decide, by decide, by decide, ?_⟩
  exact c8_fail_fast rec8 2 (str "Spaces are not allowed") (by omega)
    (fun j hj => by interval_cases j <;> decide) (by decide)

theorem ruleValidate_props {R : Rule} {a : GoAssociation} {c : Context}
    {out : GoAssociation × RuleResult} (h : ruleValidate R a c = some out) :
    out.2.rule = ruleIdFmt R.idNum ∧ out.2.state ≠ RuleState.Error ∧
    out.2.valid = true := by
  rcases himpl : R.ruleImpl a c with _ | tag
  · rw [ruleValidate, himpl] at h; simp at h
  · rw [ruleValidate, himpl] at h
    simp only [Option.map_some', Option.some.injEq] at h
    subst h
    cases tag <;> exact ⟨rfl, fun hc => RuleState.noConfusion hc, rfl⟩

theorem worstFold_mem (l : ResultSet) :
    ∀ (w : Option RuleState) (s : RuleState),
      l.foldl worstStep w = some s →
      w = some s ∨ ∃ kv ∈ l, kv.2.state = s := by
  induction l with
  | nil => intro w s h; exact Or.inl h
  | cons x xs ih =>
    intro w s h
    rw [List.foldl_cons] at h
    rcases ih (worstStep w x) s h with hw | hmem
    · rcases w with _ | ws
      · simp only [worstStep, Option.some.injEq] at hw
        exact Or.inr ⟨x, List.mem_cons_self x xs, hw⟩
      · simp only [worstStep] at hw
        cases hlt : ruleStateLt ws x.2.state
        · rw [hlt] at hw
          simp only [Bool.false_eq_true, if_false] at hw
          exact Or.inl hw
        · rw [hlt] at hw
          simp only [if_true, Option.some.injEq] at hw
          exact Or.inr ⟨x, List.mem_cons_self x xs, hw⟩
    · obtain ⟨kv, hkv, hst⟩ := hmem
      exact Or.inr ⟨kv, List.mem_cons_of_mem x hkv, hst⟩

theorem addResults_three (v2 v11 v20 : RuleResult) :
    addResults [] [(ruleIdFmt 2, v2), (ruleIdFmt 11, v11), (ruleIdFmt 20, v20)] =
      [(ruleIdFmt 2, v2), (ruleIdFmt 11, v11), (ruleIdFmt 20, v20)] := by
  simp +decide [addResults, insertRS]

/-- C10: a completed rule run holds exactly one entry per rule of the fixed
list and records no Error severity (Error tags land as Warning with
valid = true); hence validation returns Some association for every row that
converts, and the only Error-severity entry validation can record is the
structural-parse failure under gorule-0000001. -/
theorem c10_no_error_entries :
    (∀ (a : GoAssociation) (c : Context) (out : GoAssociation × ResultSet),
        runRules a c = some out →
        out.2.map Prod.fst = [ruleIdFmt 2, ruleIdFmt 11, ruleIdFmt 20] ∧
        ∀ kv ∈ out.2, kv.2.state ≠ RuleState.Error ∧ kv.2.valid = true) ∧
    (∀ (line : RawGaf21Record) (c : Context)
        (out : RawGaf21Record × Option GoAssociation × ResultSet),
        validateGaf line c = some out →
        ((∃ a0, convertRaw line c = .ok a0) → out.2.1.isSome = true) ∧
        (∀ kv ∈ out.2.2, kv.2.state = RuleState.Error →
          kv.1 = str "gorule-0000001")) := by
  have part1 : ∀ (a : GoAssociation) (c : Context)
      (out : GoAssociation × ResultSet),
      runRules a c = some out →
      out.2.map Prod.fst = [ruleIdFmt 2, ruleIdFmt 11, ruleIdFmt 20] ∧
      ∀ kv ∈ out.2, kv.2.state ≠ RuleState.Error ∧ kv.2.valid = true := by
    intro a c out h
    rw [runRules] at h
    simp only [rulesList, List.foldl_cons, List.foldl_nil, Option.some_bind] at h
    rcases h02 : ruleValidate rule02 a c with _ | p02
    · rw [h02] at h; simp at h
    · rw [h02] at h
      simp only [Option.map_some', Option.some_bind] at h
      rcases h11 : ruleValidate rule11 p02.1 c with _ | p11
      · rw [h11] at h; simp at h
      · rw [h11] at h
        simp only [Option.map_some', Option.some_bind] at h
        rcases h20 : ruleValidate rule20 p11.1 c with _ | p20
        · rw [h20] at h; simp at h
        · rw [h20] at h
          simp only [Option.map_some', Option.some.injEq] at h
          obtain ⟨hr02, hs02, hv02⟩ := ruleValidate_props h02
          obtain ⟨hr11, hs11, hv11⟩ := ruleValidate_props h11
          obtain ⟨hr20, hs20, hv20⟩ := ruleValidate_props h20
          simp only [rule02, rule11, rule20] at hr02 hr11 hr20
          subst h
          simp only [List.nil_append, List.cons_append]
          rw [hr02, hr11, hr20, addResults_three]
          refine ⟨by simp, ?_⟩
          intro kv hkv
          rcases List.mem_cons.mp hkv with rfl | hkv
          · exact ⟨hs02, hv02⟩
          rcases List.mem_cons.mp hkv with rfl | hkv
          · exact ⟨hs11, hv11⟩
          rcases List.mem_cons.mp hkv with rfl | hkv
          · exact ⟨hs20, hv20⟩
          · simp at hkv
  refine ⟨part1, ?_⟩
  intro line c out h
  rw [validateGaf] at h
  cases hconv : convertRaw line c with
  | ok a0 =>
    rw [hconv] at h
    dsimp only at h
    rcases hrr : runRules a0 c with _ | p
    · rw [hrr] at h; simp at h
    · rw [hrr] at h
      simp only [Option.map_some', Option.some.injEq] at h
      have hnoerr : ∀ kv ∈ p.2, kv.2.state ≠ RuleState.Error :=
        fun kv hkv => ((part1 a0 c p hrr).2 kv hkv).1
      have hworst : ¬ worstLevelState p.2 = some RuleState.Error := by
        intro hw
        rw [worstLevelState] at hw
        rcases worstFold_mem p.2 none RuleState.Error hw with hcontra | hmem
        · exact Option.noConfusion hcontra
        · obtain ⟨kv, hkv, hst⟩ := hmem
          exact hnoerr kv hkv hst
      rw [if_neg hworst] at h
      subst h
      exact ⟨fun _ => rfl, fun kv hkv hst => absurd hst (hnoerr kv hkv)⟩
  | error err =>
    rw [hconv] at h
    dsimp only at h
    simp only [Option.some.injEq] at h
    subst h
    constructor
    · rintro ⟨a0, ha0⟩
      exact Except.noConfusion ha0
    · intro kv hkv hst
      have hkv1 : kv = (str "gorule-0000001", ruleResultFromError err) := by
        simpa [addResult, insertRS, ruleResultFromError, RuleResult.new] using hkv
      rw [hkv1]

/-- C10 witness: the shape facts at the concrete fixtures assoc0 and rec4
under ctx0. -/
theorem c10_no_error_entries_witness :
    (∃ out, runRules assoc0 ctx0 = some out ∧
      out.2.map Prod.fst = [ruleIdFmt 2, ruleIdFmt 11, ruleIdFmt 20]) ∧
    (∃ out, validateGaf rec4 ctx0 = some out ∧ out.2.1.isSome = true) := by
  constructor
  · rcases hrr : runRules assoc0 ctx0 with _ | out
    · exact absurd hrr (by decide)
    · exact ⟨out, rfl, (c10_no_error_entries.1 assoc0 ctx0 out hrr).1⟩
  · rcases hv : validateGaf rec4 ctx0 with _ | out
    · exact absurd hv (by decide)
    · have hok : (convertRaw rec4 ctx0).isOk = true := by decide
      exact ⟨out, rfl,
        (c10_no_error_entries.2 rec4 ctx0 out hv).1 (exists_ok_of_isOk hok)⟩

end FGA
